import Mathlib

/-!
Verification of the AI-paper-blog content pipeline.

Shallow embedding of the Python sources in `content-generator/`:
`article_generator.py`, `content_manager.py`, `daily_automation.py`,
`blog_automation.py`, `arxiv_fetcher.py`, `enhanced_arxiv_fetcher.py`.

Python strings are modelled as Lean `String` (a wrapper around `List Char`);
the character-class primitives (`str.lower`, `re` classes `\w` and `\s`,
`str.split`) are modelled on their ASCII fragment, which is the fragment the
repository's data exercises.
-/

namespace AIPaperBlog

/-! ## Python string primitives -/

/-- Python `\s` / `str.split()` whitespace, ASCII fragment:
space, tab, newline, carriage return, vertical tab, form feed. -/
def pyIsSpace (c : Char) : Bool :=
  c == ' ' || c == '\t' || c == '\n' || c == '\r' || c == '\x0b' || c == '\x0c'

/-- Python regex `\w` (word character), ASCII fragment: alphanumeric or underscore. -/
def pyIsWord (c : Char) : Bool :=
  c.isAlphanum || c == '_'

/-- Word counter for `len(s.split())`: counts the maximal whitespace-free
runs; the Boolean argument records whether a run is currently open. -/
def pyWordsAux : List Char → Bool → Nat
  | [], _ => 0
  | c :: cs, inWord =>
    if pyIsSpace c then pyWordsAux cs false
    else (if inWord then 0 else 1) + pyWordsAux cs true

/-- `len(s.split())`: the number of maximal whitespace-free runs in `s`
(Python `str.split()` with no separator drops empty fields). -/
def pyWordCount (s : String) : Nat :=
  pyWordsAux s.data false

/-- Python `str.strip()`: remove leading and trailing whitespace. -/
def pyStrip (s : String) : String :=
  ⟨((s.data.dropWhile pyIsSpace).reverse.dropWhile pyIsSpace).reverse⟩

/-- Python `round(w / 200)`: division by 200 rounded to the nearest integer,
ties to even (Python 3 banker's rounding; `w/200` at a tie `…+0.5` is exact
in binary floating point, so the tie rule is exercised as written). -/
def pyRound200 (w : Nat) : Nat :=
  if w % 200 < 100 then w / 200
  else if 100 < w % 200 then w / 200 + 1
  else if w / 200 % 2 = 0 then w / 200 else w / 200 + 1

/-- `article_generator.generate_article` lines 66-68:
`read_time = max(1, round(total_words / 200))` where `total_words` is the
word count of the five generated section strings concatenated. -/
def read_time_minutes (bg meth res sig cc : String) : Nat :=
  max 1 (pyRound200 (pyWordCount (bg ++ meth ++ res ++ sig ++ cc)))

/-! ## Data model

`PaperRecord` as consumed by `generate_article` and the daily pipeline:
the dict keys read by the code (`id`, `title`, `authors`, `summary`,
`published`, `category`, and for live-search papers `relevance_score`). -/

structure Paper where
  id : String
  title : String
  authors : List String
  summary : String
  published : String
  category : String
  relevance_score : Option Int := none
deriving DecidableEq, Repr

/-- The `content` sub-dict of an article. -/
structure ArticleContent where
  background : String
  methodology : String
  results : String
  significance : String
deriving DecidableEq, Repr

/-- The `concept_explanation` sub-dict of an article. -/
structure ConceptExplanation where
  title : String
  content : String
deriving DecidableEq, Repr

/-- The article dict built by `ArticleGenerator.generate_article`. -/
structure Article where
  title : String
  subtitle : String
  category : String
  authors : List String
  paper_url : String
  read_time : String
  publish_date : String
  concept_explained : String
  content : ArticleContent
  concept_explanation : ConceptExplanation
  summary : String
deriving DecidableEq, Repr

/-! ## Article generator (`article_generator.py`)

Each `_generate_*` helper issues one generation request built from a fixed
f-string template and the paper's fields. The templates have pairwise
distinct fixed text, so a request is faithfully identified by which template
it instantiates together with the interpolated fields; `Prompt` is that
identification. The external text-generation service is a function from
prompts to either generated text or a `ServiceError` detail. -/

inductive Prompt where
  | background (title summary : String)
  | methodology (title summary : String)
  | results (title summary : String)
  | significance (title summary published : String)
  | conceptIdentify (title summary : String)
  | conceptExplain (conceptTitle title summary : String)
  | summarize (title summary : String)
  | subtitle (title summary : String)
deriving DecidableEq, Repr

/-- `ArticleGenerator._call_openai`: on success the response text is
`.strip()`-ped; any exception is caught and replaced by the visible
placeholder `"Error generating content: {e}"`. -/
def call_openai (svc : Prompt → Except String String) (p : Prompt) : String :=
  match svc p with
  | .ok t => pyStrip t
  | .error e => "Error generating content: " ++ e

/-- The slug-to-display-name table of `ArticleGenerator._format_category`. -/
def category_display_map : List (String × String) :=
  [("foundation-models", "Foundation Models"),
   ("generative-models", "Generative Models"),
   ("optimization", "Optimization"),
   ("applications", "Applications"),
   ("basic-concepts", "Basic Concepts")]

/-- `ArticleGenerator._format_category`: table lookup with fallback
`'Basic Concepts'`. -/
def format_category (slug : String) : String :=
  (category_display_map.lookup slug).getD "Basic Concepts"

/-- `paper['title'].split(':')[0] if ':' in paper['title'] else paper['title']`
(used in the concept-explanation heading). -/
def title_before_colon (t : String) : String :=
  if t.contains ':' then t.takeWhile (fun c => c ≠ ':') else t

/-- `ArticleGenerator.generate_article`. `svc` is the external
text-generation service; `now` is `datetime.now().strftime("%Y-%m-%d")`. -/
def generate_article (svc : Prompt → Except String String) (now : String)
    (paper : Paper) : Article :=
  let background := call_openai svc (.background paper.title paper.summary)
  let methodology := call_openai svc (.methodology paper.title paper.summary)
  let results := call_openai svc (.results paper.title paper.summary)
  let significance :=
    call_openai svc (.significance paper.title paper.summary paper.published)
  let concept_title :=
    pyStrip (call_openai svc (.conceptIdentify paper.title paper.summary))
  let concept_content :=
    call_openai svc (.conceptExplain concept_title paper.title paper.summary)
  let summary := pyStrip (call_openai svc (.summarize paper.title paper.summary))
  let read_time := read_time_minutes background methodology results significance
    concept_content
  { title := "Paper Explained: " ++ paper.title ++ " - A Beginner's Guide"
    subtitle := pyStrip (call_openai svc (.subtitle paper.title paper.summary))
    category := format_category paper.category
    authors := paper.authors
    paper_url := "https://arxiv.org/abs/" ++ paper.id
    read_time := toString read_time ++ " min read"
    publish_date := now
    concept_explained := concept_title
    content := { background := background, methodology := methodology,
                 results := results, significance := significance }
    concept_explanation :=
      { title := "Understanding " ++ concept_title ++ ": The Heart of " ++
          title_before_colon paper.title
        content := concept_content }
    summary := summary }

/-- The first seed paper of `arxiv_fetcher.ArxivFetcher.classic_papers`
(with its abstract under the `summary` key that `generate_article` reads). -/
def attentionPaper : Paper :=
  { id := "1706.03762"
    title := "Attention Is All You Need"
    authors := ["Ashish Vaswani", "Noam Shazeer", "Niki Parmar",
      "Jakob Uszkoreit", "Llion Jones", "Aidan N. Gomez", "Lukasz Kaiser",
      "Illia Polosukhin"]
    summary := "The dominant sequence transduction models are based on complex recurrent or convolutional neural networks that include an encoder and a decoder."
    published := "2017-06-12"
    category := "foundation-models" }

/-! ## Slugification (`content_manager.ContentManager._create_article_id`) -/

/-- The character class `[-\s]` of the run-collapsing substitution. -/
def isDashSpace (c : Char) : Bool :=
  pyIsSpace c || c == '-'

/-- The class `[^\w\s-]` is deleted by the first substitution; `keepChar` is
its complement, the characters that survive. -/
def keepChar (c : Char) : Bool :=
  pyIsWord c || pyIsSpace c || c == '-'

/-- `re.sub(r'[-\s]+', '-', s)`: every maximal run of dash/whitespace
characters becomes a single `'-'`. The Boolean argument records whether the
previous character belonged to such a run. -/
def collapseRuns : Bool → List Char → List Char
  | _, [] => []
  | prevDS, c :: cs =>
    if isDashSpace c then
      if prevDS then collapseRuns true cs else '-' :: collapseRuns true cs
    else c :: collapseRuns false cs

/-- Python `s.strip('-')`: remove leading and trailing `'-'` characters. -/
def stripDash (l : List Char) : List Char :=
  ((l.dropWhile (fun c => c == '-')).reverse.dropWhile (fun c => c == '-')).reverse

/-- Split at the first occurrence of `pat` in `s`: `some (before, after)`
when `pat` occurs (Python `pat in s` and `s.split(pat)` around the first
hit), `none` otherwise. -/
def splitFirst (pat : List Char) : List Char → Option (List Char × List Char)
  | [] => if pat.isPrefixOf ([] : List Char) then some ([], []) else none
  | c :: cs =>
    if pat.isPrefixOf (c :: cs) then some ([], (c :: cs).drop pat.length)
    else (splitFirst pat cs).map (fun p => (c :: p.1, p.2))

def peSep : List Char := "Paper Explained: ".data

def dashSep : List Char := " - ".data

/-- The slugging phase of `_create_article_id`:
`re.sub(r'[-\s]+', '-', re.sub(r'[^\w\s-]', '', s.lower())).strip('-')`. -/
def slugChars (l : List Char) : List Char :=
  stripDash (collapseRuns false ((l.map Char.toLower).filter keepChar))

/-- The extraction phase of `_create_article_id`: when `"Paper Explained: "`
occurs in the title, take `title.split("Paper Explained: ")[1]` (the segment
after the first occurrence, up to the next) and truncate it at the first
`" - "` when one occurs; otherwise the whole title. -/
def extractPaperTitle (title : List Char) : List Char :=
  match splitFirst peSep title with
  | some (_, after) =>
    let seg :=
      match splitFirst peSep after with
      | some (b, _) => b
      | none => after
    match splitFirst dashSep seg with
    | some (b, _) => b
    | none => seg
  | none => title

/-- `ContentManager._create_article_id`: extract the inner paper title, then
lower-case, delete `[^\w\s-]`, collapse `[-\s]+` runs to `'-'`, strip
boundary dashes. Determinism is immediate (it is a function of the title). -/
def create_article_id (title : String) : String :=
  ⟨slugChars (extractPaperTitle title.data)⟩

/-- Truncation at the first occurrence of `" - "` (what
`paper_title.split(" - ")[0]` computes). -/
def truncAtFirstDash (l : List Char) : List Char :=
  match splitFirst dashSep l with
  | some (b, _) => b
  | none => l

def bgSuffix : List Char := " - A Beginner's Guide".data

/-- Modelled from the spec (§4.4, refinement reference for C7): derive the
id by stripping the generic `"Paper Explained: "` prefix and any trailing
`" - A Beginner's Guide"` suffix, each only if present, and slugging the
remainder; no other part of the title is removed. -/
def create_article_id_spec (title : String) : String :=
  let t1 :=
    if peSep.isPrefixOf title.data then title.data.drop peSep.length
    else title.data
  let t2 :=
    if bgSuffix.isSuffixOf t1 then t1.take (t1.length - bgSuffix.length)
    else t1
  ⟨slugChars t2⟩

/-- A character that can occur in a slug: a lower-case-stable word character
that is neither whitespace nor a dash, or the dash itself. -/
def SlugChar (c : Char) : Prop :=
  (pyIsWord c = true ∧ c.toLower = c ∧ isDashSpace c = false) ∨ c = '-'

/-- No two adjacent dash/whitespace characters. -/
def NoAdjacentDS (l : List Char) : Prop :=
  List.Chain' (fun a b => isDashSpace a = false ∨ isDashSpace b = false) l

/-- The shape invariant of `_create_article_id` outputs. -/
def IsSlug (l : List Char) : Prop :=
  (∀ c ∈ l, SlugChar c) ∧ NoAdjacentDS l ∧
    (∀ c ∈ l.head?, c ≠ '-') ∧ (∀ c ∈ l.getLast?, c ≠ '-')

/-! ## Corpus integration (`content_manager.ContentManager`) -/

/-- The display-name-to-slug table of `ContentManager._get_category_slug`. -/
def category_slug_map : List (String × String) :=
  [("Foundation Models", "foundation-models"),
   ("Generative Models", "generative-models"),
   ("Optimization", "optimization"),
   ("Applications", "applications"),
   ("Basic Concepts", "basic-concepts")]

/-- `ContentManager._get_category_slug`: table lookup with fallback
`'basic-concepts'`. -/
def get_category_slug (category : String) : String :=
  (category_slug_map.lookup category).getD "basic-concepts"

def dotSep : List Char := ". ".data

/-- `ContentManager._create_excerpt`: when `background.split('. ')` has at
least two fields (i.e. `". "` occurs), the first two fields re-joined with
`". "` plus a final `'.'`; otherwise the text itself, truncated to 200
characters plus `"..."` when longer. -/
def create_excerpt (background : String) : String :=
  match splitFirst dotSep background.data with
  | some (s1, rest) =>
    let s2 :=
      match splitFirst dotSep rest with
      | some (b, _) => b
      | none => rest
    ⟨s1 ++ dotSep ++ s2 ++ ['.']⟩
  | none =>
    if background.data.length > 200 then ⟨background.data.take 200⟩ ++ "..."
    else background

/-- The renderer-facing dict built per article by
`ContentManager.integrate_articles`. -/
structure CorpusEntry where
  id : String
  title : String
  subtitle : String
  category : String
  categorySlug : String
  authors : List String
  paperUrl : String
  readTime : String
  publishDate : String
  conceptExplained : String
  content : ArticleContent
  conceptExplanation : ConceptExplanation
  summary : String
  excerpt : String
deriving DecidableEq, Repr

/-- The per-article projection inside `ContentManager.integrate_articles`
(the `article_data` dict). -/
def toCorpusEntry (a : Article) : CorpusEntry :=
  { id := create_article_id a.title
    title := a.title
    subtitle := a.subtitle
    category := a.category
    categorySlug := get_category_slug a.category
    authors := a.authors
    paperUrl := a.paper_url
    readTime := a.read_time
    publishDate := a.publish_date
    conceptExplained := a.concept_explained
    content := a.content
    conceptExplanation := a.concept_explanation
    summary := a.summary
    excerpt := create_excerpt a.content.background }

/-- `ContentManager.integrate_articles`, data content: the `articles_data`
list written to `articles.json` is the projection of the `articles`
argument alone. -/
def integrate_articles (articles : List Article) : List CorpusEntry :=
  articles.map toCorpusEntry

/-- The corpus-file write of `ContentManager.integrate_articles`:
`articles.json` is opened with mode `'w'` and `articles_data` is dumped
into it, so the previous file content does not flow into the new one. -/
def integrate_articles_file (articles : List Article)
    (_oldFile : List CorpusEntry) : List CorpusEntry :=
  integrate_articles articles

/-! ## Blog automation (`blog_automation.BlogAutomation`) -/

/-- Sort relation of `integrate_all_content`:
`articles.sort(key=lambda x: x.get('publish_date', ''), reverse=True)`;
`a` may stay before `b` exactly when its key is not smaller. -/
def pubDateGe (a b : Article) : Prop :=
  b.publish_date ≤ a.publish_date

instance : DecidableRel pubDateGe :=
  fun a b => inferInstanceAs (Decidable (b.publish_date ≤ a.publish_date))

instance : IsTotal Article pubDateGe :=
  ⟨fun a b => le_total b.publish_date a.publish_date⟩

instance : IsTrans Article pubDateGe :=
  ⟨fun _ _ _ h1 h2 => le_trans h2 h1⟩

/-- `BlogAutomation.integrate_all_content` on a non-empty collection: the
collected article files are sorted by `publish_date` descending (Python's
sort is stable; `List.insertionSort pubDateGe` places an earlier element
before a later one exactly when Python would keep it there) and handed to
`ContentManager.integrate_articles`, which overwrites the corpus file. -/
def integrate_all_content (collected : List Article)
    (_oldFile : List CorpusEntry) : List CorpusEntry :=
  integrate_articles (collected.insertionSort pubDateGe)

/-! ## Daily automation (`daily_automation.DailyAutomation`) -/

/-- `paper.get('relevance_score', 0)`. -/
def scoreOf (p : Paper) : Int :=
  p.relevance_score.getD 0

/-- Sort relation of the daily selection:
`new_papers.sort(key=lambda x: x.get('relevance_score', 0), reverse=True)`. -/
def scoreGe (a b : Paper) : Prop :=
  scoreOf b ≤ scoreOf a

instance : DecidableRel scoreGe :=
  fun a b => inferInstanceAs (Decidable (scoreOf b ≤ scoreOf a))

instance : IsTotal Paper scoreGe :=
  ⟨fun a b => le_total (scoreOf b) (scoreOf a)⟩

instance : IsTrans Paper scoreGe :=
  ⟨fun _ _ _ h1 h2 => le_trans h2 h1⟩

/-- `DailyAutomation.find_new_papers`, selection logic on the fetched
candidates: drop candidates whose id is among the existing ids, sort the
survivors by relevance score descending (stable), truncate to the daily
limit (`self.max_daily_articles`, which the constructor sets to 2). -/
def find_new_papers (recent : List Paper) (existing : List String)
    (limit : Nat) : List Paper :=
  ((recent.filter (fun p => decide (p.id ∉ existing))).insertionSort
    scoreGe).take limit

/-- The methods `class ContentManager` defines (content_manager.py). -/
def contentManagerMethodNames : List String :=
  ["__init__", "ensure_directories", "integrate_articles",
   "_create_article_id", "_get_category_slug", "_create_excerpt",
   "_update_react_components", "_update_homepage_component",
   "_update_article_page_component", "_update_category_page_component"]

/-- `DailyAutomation.integrate_articles` as a transition on the corpus
file: with no articles it returns immediately; otherwise it attempts
`self.content_manager.integrate_articles_to_blog(articles)`. Attribute
lookup on the `ContentManager` instance succeeds only for a defined method;
in the branch where the name were found the looked-up integration would
run (that branch is dead: the name is not defined, see C3), and the
`AttributeError` of the failed lookup is caught by `except Exception` and
printed. The result pairs the corpus file after the call with whether an
integration error was logged. -/
def daily_integrate_articles (articles : List Article)
    (corpusFile : List CorpusEntry) : List CorpusEntry × Bool :=
  if articles.isEmpty then (corpusFile, false)
  else if "integrate_articles_to_blog" ∈ contentManagerMethodNames then
    (integrate_articles articles, false)
  else (corpusFile, true)

/-! ## Paper sources (`arxiv_fetcher.py`, `enhanced_arxiv_fetcher.py`) -/

/-- A raw Atom `<entry>`: each field is `none` when the element is absent
(reading `.text` of a missing element raises, caught per entry by
`_parse_entry`). -/
structure RawEntry where
  title : Option String
  summary : Option String
  published : Option String
  idUrl : Option String
  authors : List (Option String)
  categories : List String
deriving DecidableEq, Repr

/-- The category table of `ArxivFetcher._map_category`. -/
def arxiv_category_map : List (String × String) :=
  [("cs.LG", "foundation-models"), ("cs.CL", "foundation-models"),
   ("cs.CV", "basic-concepts"), ("cs.AI", "foundation-models"),
   ("cs.NE", "basic-concepts"), ("stat.ML", "foundation-models"),
   ("cs.RO", "applications"), ("cs.HC", "applications"),
   ("q-bio", "applications")]

/-- `ArxivFetcher._map_category`: the first listed category with a mapping
wins; default `'basic-concepts'`. -/
def map_category (cats : List String) : String :=
  match cats.find? (fun c => (arxiv_category_map.lookup c).isSome) with
  | some c => (arxiv_category_map.lookup c).getD "basic-concepts"
  | none => "basic-concepts"

/-- `s.replace('\n', ' ')`. -/
def replaceNewline (s : String) : String :=
  ⟨s.data.map (fun c => if c = '\n' then ' ' else c)⟩

/-- `ArxivFetcher._parse_entry`: any missing element aborts the entry (the
`except` returns `None`); otherwise the paper dict is assembled. The
abstract text (the `abstract` key in the Python dict) is held in the
model's `summary` field. -/
def parse_entry (e : RawEntry) : Option Paper := do
  let t ← e.title
  let ab ← e.summary
  let pub ← e.published
  let url ← e.idUrl
  let auths ← e.authors.mapM id
  some
    { id := ⟨(url.data.reverse.takeWhile (fun c => c ≠ '/')).reverse⟩
      title := replaceNewline (pyStrip t)
      authors := auths
      summary := replaceNewline (pyStrip ab)
      published := ⟨pub.data.take 10⟩
      category := map_category e.categories }

/-- `ArxivFetcher.search_papers`: `env` is the paper source; it yields the
parsed `<entry>` elements of the response, or the failure (a `requests`
exception, a non-2xx status via `raise_for_status`, or an XML parse error —
all caught by the surrounding `try`). On failure the exception is printed
and the empty list returned; on success entries that fail to parse are
skipped. -/
def search_papers (env : String → Except String (List RawEntry))
    (query : String) : List Paper :=
  match env query with
  | .ok entries => entries.filterMap parse_entry
  | .error _ => []

/-- The three searches `EnhancedArxivFetcher.search_recent_papers` runs. -/
def enhanced_queries (query : String) : List String :=
  ["(" ++ query ++ ")",
   "(artificial intelligence OR machine learning OR deep learning OR neural network OR transformer OR attention mechanism)",
   "(computer vision OR natural language processing OR reinforcement learning OR generative model)"]

/-- First-occurrence deduplication by paper id (the `unique_papers` dict:
insertion order, first hit wins). -/
def dedupeById : List String → List Paper → List Paper
  | _, [] => []
  | seen, p :: ps =>
    if p.id ∈ seen then dedupeById seen ps
    else p :: dedupeById (p.id :: seen) ps

/-- `EnhancedArxivFetcher.search_recent_papers`: each of the three searches
runs in its own `try`; a failing search is printed and skipped
(`continue`). `env` yields, per query, the `paper_data` records the loop
body builds from that search's results (date/category-filtered and
relevance-scored), or the search's failure. The collected papers are
deduplicated by id, sorted by relevance score descending (stable) and
truncated to `max_results`. -/
def search_recent_papers (env : String → Except String (List Paper))
    (query : String) (max_results : Nat) : List Paper :=
  let all := (enhanced_queries query).foldl
    (fun acc q =>
      match env q with
      | .ok ps => acc ++ ps
      | .error _ => acc) []
  ((dedupeById [] all).insertionSort scoreGe).take max_results

/-! ## Concrete records used in scenarios -/

/-- A small concrete article record (for concrete instantiations). -/
def sampleArticle (t st pd : String) : Article :=
  { title := t
    subtitle := st
    category := "Foundation Models"
    authors := ["A. Author"]
    paper_url := "https://arxiv.org/abs/0000.00000"
    read_time := "1 min read"
    publish_date := pd
    concept_explained := "Concept"
    content := { background := "B", methodology := "M", results := "R",
                 significance := "S" }
    concept_explanation := { title := "CT", content := "CC" }
    summary := "Sum" }

/-- A pre-existing corpus entry (for concrete instantiations). -/
def oldEntry : CorpusEntry :=
  { id := "old-paper"
    title := "Old Paper"
    subtitle := "old"
    category := "Basic Concepts"
    categorySlug := "basic-concepts"
    authors := ["O. Author"]
    paperUrl := "https://arxiv.org/abs/1111.11111"
    readTime := "2 min read"
    publishDate := "2020-01-01"
    conceptExplained := "Old Concept"
    content := { background := "ob", methodology := "om", results := "or",
                 significance := "os" }
    conceptExplanation := { title := "oct", content := "occ" }
    summary := "osum"
    excerpt := "ob" }

/-- A live-search paper record carrying a relevance score. -/
def scorePaper (i : String) (s : Int) : Paper :=
  { id := i
    title := "T" ++ i
    authors := []
    summary := ""
    published := "2024-01-01"
    category := "basic-concepts"
    relevance_score := some s }

/-- The C1 scenario candidates: 5 unseen papers with scores 3, 9, 1, 9, 5. -/
def scenarioPapers : List Paper :=
  [scorePaper "p1" 3, scorePaper "p2" 9, scorePaper "p3" 1,
   scorePaper "p4" 9, scorePaper "p5" 5]

/-- A deterministic generation service that echoes the identified concept in
the concept-explanation reply, so that changes to the explanation prompt are
observable. -/
def svcEcho : Prompt → Except String String :=
  fun p => .ok (match p with
    | .conceptExplain ct _ _ => "Explain " ++ ct
    | _ => "GEN")

/-- `svcEcho`, except that the single concept-identification call for the
Attention paper fails. -/
def svcConceptFail : Prompt → Except String String :=
  fun p =>
    if p = .conceptIdentify attentionPaper.title attentionPaper.summary then
      .error "boom"
    else svcEcho p

/-! ## Helper lemmas -/

theorem toNat_ofNat_valid (n : Nat) (hn : n.isValidChar) :
    (Char.ofNat n).toNat = n := by
  unfold Char.ofNat
  rw [dif_pos hn]
  rfl

theorem toLower_idem (c : Char) : c.toLower.toLower = c.toLower := by
  by_cases h : c.toNat ≥ 65 ∧ c.toNat ≤ 90
  · have h1 : c.toLower = Char.ofNat (c.toNat + 32) := by
      show (if c.toNat ≥ 65 ∧ c.toNat ≤ 90 then Char.ofNat (c.toNat + 32) else c) = _
      rw [if_pos h]
    have h2 : c.toLower.toNat = c.toNat + 32 := by
      rw [h1]
      exact toNat_ofNat_valid _ (Or.inl (by omega))
    show (if c.toLower.toNat ≥ 65 ∧ c.toLower.toNat ≤ 90 then
        Char.ofNat (c.toLower.toNat + 32) else c.toLower) = c.toLower
    rw [if_neg (by omega)]
  · have h1 : c.toLower = c := by
      show (if c.toNat ≥ 65 ∧ c.toNat ≤ 90 then Char.ofNat (c.toNat + 32) else c) = c
      rw [if_neg h]
    rw [h1, h1]

theorem mem_collapseRuns {c : Char} :
    ∀ (l : List Char) (b : Bool), c ∈ collapseRuns b l →
      c = '-' ∨ (c ∈ l ∧ isDashSpace c = false)
  | [], b => by simp [collapseRuns]
  | d :: cs, b => by
    intro hc
    by_cases hd : isDashSpace d = true
    · rcases b with _ | _
      · simp only [collapseRuns, hd, if_true, Bool.false_eq_true, if_false,
          List.mem_cons] at hc
        rcases hc with hc | hc
        · exact Or.inl hc
        · rcases mem_collapseRuns cs true hc with h | ⟨h1, h2⟩
          · exact Or.inl h
          · exact Or.inr ⟨List.mem_cons_of_mem _ h1, h2⟩
      · simp only [collapseRuns, hd, if_true] at hc
        rcases mem_collapseRuns cs true hc with h | ⟨h1, h2⟩
        · exact Or.inl h
        · exact Or.inr ⟨List.mem_cons_of_mem _ h1, h2⟩
    · simp only [collapseRuns, hd, if_false, Bool.false_eq_true, List.mem_cons] at hc
      rcases hc with hc | hc
      · exact Or.inr ⟨hc ▸ List.mem_cons_self d cs, hc ▸ (by simpa using hd)⟩
      · rcases mem_collapseRuns cs false hc with h | ⟨h1, h2⟩
        · exact Or.inl h
        · exact Or.inr ⟨List.mem_cons_of_mem _ h1, h2⟩

theorem head?_collapseRuns_true {c : Char} :
    ∀ l : List Char, (collapseRuns true l).head? = some c → isDashSpace c = false
  | [] => by simp [collapseRuns]
  | d :: cs => by
    intro h
    by_cases hd : isDashSpace d = true
    · simp only [collapseRuns, hd, if_true] at h
      exact head?_collapseRuns_true cs h
    · simp only [collapseRuns, hd, if_false, Bool.false_eq_true, List.head?_cons,
        Option.some.injEq] at h
      subst h
      simpa using hd

theorem chain'_collapseRuns :
    ∀ (l : List Char) (b : Bool), NoAdjacentDS (collapseRuns b l)
  | [], b => by simp [collapseRuns, NoAdjacentDS]
  | d :: cs, b => by
    by_cases hd : isDashSpace d = true
    · rcases b with _ | _
      · show NoAdjacentDS (collapseRuns false (d :: cs))
        simp only [collapseRuns, hd, if_true]
        refine List.chain'_cons'.mpr ⟨?_, chain'_collapseRuns cs true⟩
        intro y hy
        exact Or.inr (head?_collapseRuns_true cs hy)
      · show NoAdjacentDS (collapseRuns true (d :: cs))
        simp only [collapseRuns, hd, if_true]
        exact chain'_collapseRuns cs true
    · show NoAdjacentDS (collapseRuns b (d :: cs))
      simp only [collapseRuns, hd, if_false, Bool.false_eq_true]
      refine List.chain'_cons'.mpr ⟨?_, chain'_collapseRuns cs false⟩
      intro y hy
      exact Or.inl (by simpa using hd)

theorem collapseRuns_true_eq_false {l : List Char}
    (h : ∀ c, l.head? = some c → isDashSpace c = false) :
    collapseRuns true l = collapseRuns false l := by
  cases l with
  | nil => rfl
  | cons d cs =>
    have hd := h d rfl
    simp [collapseRuns, hd]

theorem collapseRuns_eq_self :
    ∀ l : List Char, (∀ c ∈ l, isDashSpace c = true → c = '-') →
      NoAdjacentDS l → collapseRuns false l = l
  | [], _, _ => rfl
  | d :: cs, h1, h2 => by
    have hc2 := List.chain'_cons'.mp h2
    by_cases hd : isDashSpace d = true
    · have hdash : d = '-' := h1 d (List.mem_cons_self d cs) hd
      have hhead : ∀ c, cs.head? = some c → isDashSpace c = false := by
        intro c hch
        rcases hc2.1 c hch with h | h
        · exact absurd hd (by simp [h])
        · exact h
      simp only [collapseRuns, hd, if_true, Bool.false_eq_true, if_false]
      rw [collapseRuns_true_eq_false hhead,
        collapseRuns_eq_self cs (fun c hc => h1 c (List.mem_cons_of_mem _ hc)) hc2.2,
        hdash]
    · simp only [collapseRuns, hd, if_false, Bool.false_eq_true]
      rw [collapseRuns_eq_self cs (fun c hc => h1 c (List.mem_cons_of_mem _ hc)) hc2.2]

theorem head?_dropWhile (p : Char → Bool) {c : Char} :
    ∀ l : List Char, (l.dropWhile p).head? = some c → p c = false
  | [] => by simp
  | d :: cs => by
    intro h
    by_cases hd : p d = true
    · rw [List.dropWhile_cons_of_pos hd] at h
      exact head?_dropWhile p cs h
    · rw [List.dropWhile_cons_of_neg hd] at h
      simp only [List.head?_cons, Option.some.injEq] at h
      subst h
      simpa using hd

theorem dropWhile_eq_self_of_head {p : Char → Bool} {l : List Char}
    (h : ∀ c, l.head? = some c → p c = false) : l.dropWhile p = l := by
  cases l with
  | nil => rfl
  | cons d cs => exact List.dropWhile_cons_of_neg (by simp [h d rfl])

theorem stripDash_isInfix (l : List Char) : stripDash l <:+: l := by
  have h1 : l.dropWhile (fun c => c == '-') <:+ l := List.dropWhile_suffix _
  have h2 : (l.dropWhile (fun c => c == '-')).reverse.dropWhile (fun c => c == '-') <:+
      (l.dropWhile (fun c => c == '-')).reverse := List.dropWhile_suffix _
  have h3 : stripDash l <+: l.dropWhile (fun c => c == '-') := by
    rw [← List.reverse_suffix]
    simpa [stripDash] using h2
  exact h3.isInfix.trans h1.isInfix

theorem mem_stripDash {c : Char} {l : List Char} (h : c ∈ stripDash l) : c ∈ l :=
  (stripDash_isInfix l).sublist.mem h

theorem head?_stripDash {c : Char} {l : List Char}
    (h : (stripDash l).head? = some c) : (c == '-') = false := by
  have h3 : stripDash l <+: l.dropWhile (fun c => c == '-') := by
    rw [← List.reverse_suffix]
    simpa [stripDash] using
      @List.dropWhile_suffix Char ((l.dropWhile (fun c => c == '-')).reverse)
        (fun c => c == '-')
  rcases h3 with ⟨t, ht⟩
  have hh : (l.dropWhile (fun c => c == '-')).head? = some c := by
    rw [← ht, List.head?_append, h]
    rfl
  exact head?_dropWhile (fun c => c == '-') l hh

theorem getLast?_stripDash {c : Char} {l : List Char}
    (h : (stripDash l).getLast? = some c) : (c == '-') = false := by
  rw [stripDash, List.getLast?_reverse] at h
  exact head?_dropWhile (fun c => c == '-') _ h

theorem isSlug_slugChars (t : List Char) : IsSlug (slugChars t) := by
  refine ⟨?_, ?_, ?_, ?_⟩
  · intro c hc
    rcases mem_collapseRuns _ false (mem_stripDash hc) with h | ⟨h1, h2⟩
    · exact Or.inr h
    · rcases List.mem_filter.mp h1 with ⟨hm, hk⟩
      have hword : pyIsWord c = true := by
        have hns : pyIsSpace c = false := by
          simp only [isDashSpace, Bool.or_eq_false_iff] at h2
          exact h2.1
        have hnd : (c == '-') = false := by
          simp only [isDashSpace, Bool.or_eq_false_iff] at h2
          exact h2.2
        simpa [keepChar, hns, hnd] using hk
      rcases List.mem_map.mp hm with ⟨c0, _, hc0⟩
      exact Or.inl ⟨hword, hc0 ▸ toLower_idem c0, h2⟩
  · exact List.Chain'.infix (chain'_collapseRuns _ false) (stripDash_isInfix _)
  · intro c hc
    exact beq_eq_false_iff_ne.mp (head?_stripDash hc)
  · intro c hc
    exact beq_eq_false_iff_ne.mp (getLast?_stripDash hc)

theorem slugChars_eq_self {l : List Char} (h : IsSlug l) : slugChars l = l := by
  obtain ⟨hchars, hchain, hhead, hlast⟩ := h
  have hmap : l.map Char.toLower = l := by
    have heq : List.map Char.toLower l = List.map id l := by
      refine List.map_congr_left ?_
      intro c hc
      rcases hchars c hc with ⟨_, hl, _⟩ | hd
      · simpa using hl
      · subst hd
        decide
    simpa using heq
  have hfilter : (l.map Char.toLower).filter keepChar = l := by
    rw [hmap]
    refine List.filter_eq_self.mpr ?_
    intro c hc
    rcases hchars c hc with ⟨hw, _, _⟩ | hd
    · simp [keepChar, hw]
    · subst hd
      decide
  have hcoll : collapseRuns false ((l.map Char.toLower).filter keepChar) = l := by
    rw [hfilter]
    refine collapseRuns_eq_self l ?_ hchain
    intro c hc hds
    rcases hchars c hc with ⟨_, _, hnds⟩ | hd
    · exact absurd hds (by simp [hnds])
    · exact hd
  have hstrip : stripDash l = l := by
    have h1 : l.dropWhile (fun c => c == '-') = l := by
      refine dropWhile_eq_self_of_head ?_
      intro c hc
      exact beq_eq_false_iff_ne.mpr (hhead c hc)
    have h2 : l.reverse.dropWhile (fun c => c == '-') = l.reverse := by
      refine dropWhile_eq_self_of_head ?_
      intro c hc
      rw [List.head?_reverse] at hc
      exact beq_eq_false_iff_ne.mpr (hlast c hc)
    rw [stripDash, h1, h2, List.reverse_reverse]
  rw [slugChars, hcoll, hstrip]

theorem splitFirst_mem {pat : List Char} {r : List Char × List Char} :
    ∀ s : List Char, splitFirst pat s = some r → ∀ c ∈ pat, c ∈ s
  | [] => by
    intro h c hc
    by_cases hp : pat.isPrefixOf ([] : List Char) = true
    · have : pat = [] := List.prefix_nil.mp (List.isPrefixOf_iff_prefix.mp hp)
      subst this
      simp at hc
    · simp [splitFirst, hp] at h
  | d :: cs => by
    intro h c hc
    by_cases hp : pat.isPrefixOf (d :: cs) = true
    · exact (List.isPrefixOf_iff_prefix.mp hp).subset hc
    · simp only [splitFirst, hp, if_false, Bool.false_eq_true, Option.map_eq_some'] at h
      rcases h with ⟨r', hr', _⟩
      exact List.mem_cons_of_mem _ (splitFirst_mem cs hr' c hc)

theorem extractPaperTitle_eq_self {l : List Char} (h : IsSlug l) :
    extractPaperTitle l = l := by
  have hsp : ' ' ∉ l := by
    intro hmem
    rcases h.1 ' ' hmem with ⟨_, _, hds⟩ | hd
    · simp [isDashSpace, pyIsSpace] at hds
    · simp at hd
  have hnone : splitFirst peSep l = none := by
    cases hsf : splitFirst peSep l with
    | none => rfl
    | some r =>
      exact absurd (splitFirst_mem l hsf ' ' (by decide)) hsp
  rw [extractPaperTitle, hnone]

/-! ## Claims C5 and C9 -/

/-- C5: for every paper and every combination of generated section texts, the
article's `read_time` field is derived from the word count of the article's
own five prose sections (background, methodology, results, significance,
concept explanation) concatenated, divided by 200, rounded to the nearest
integer (ties to even, as Python's `round`) and floored at 1; the derived
minutes are always ≥ 1, and an article whose generated sections are all empty
gets exactly `"1 min read"`. -/
theorem C5_read_time_derivation :
    (∀ (svc : Prompt → Except String String) (now : String) (paper : Paper),
      (generate_article svc now paper).read_time =
        toString (max 1 (pyRound200 (pyWordCount
          ((generate_article svc now paper).content.background ++
           (generate_article svc now paper).content.methodology ++
           (generate_article svc now paper).content.results ++
           (generate_article svc now paper).content.significance ++
           (generate_article svc now paper).concept_explanation.content)))) ++
          " min read") ∧
    (∀ bg meth res sig cc : String, 1 ≤ read_time_minutes bg meth res sig cc) ∧
    (∀ (now : String) (paper : Paper),
      (generate_article (fun _ => .ok "") now paper).read_time = "1 min read") := by
  refine ⟨fun svc now paper => rfl, fun bg meth res sig cc => Nat.le_max_left 1 _,
    fun now paper => ?_⟩
  simp only [generate_article, call_openai]
  rfl

/-- C9: for the seed paper `1706.03762` ("Attention Is All You Need",
category `foundation-models`) and any deterministic generation service,
`generate_article` produces an article whose `category` is the display name
`"Foundation Models"` and whose `title` is
`"Paper Explained: Attention Is All You Need - A Beginner's Guide"`. -/
theorem C9_attention_scenario :
    ∀ (svc : Prompt → Except String String) (now : String),
      (generate_article svc now attentionPaper).category = "Foundation Models" ∧
      (generate_article svc now attentionPaper).title =
        "Paper Explained: Attention Is All You Need - A Beginner's Guide" :=
  fun _ _ => ⟨rfl, rfl⟩

/-! ## Claims C6, C7, C8 (slugification and corpus ids) -/

/-- C6: slugification of an article title (`_create_article_id`) is
deterministic (it is a pure function) and idempotent: applying it twice
yields the same result as applying it once, for every title string. -/
theorem C6_slug_idempotent (title : String) :
    create_article_id (create_article_id title) = create_article_id title := by
  show (⟨slugChars (extractPaperTitle (slugChars (extractPaperTitle title.data)))⟩ : String) = _
  have hu : IsSlug (slugChars (extractPaperTitle title.data)) := isSlug_slugChars _
  rw [extractPaperTitle_eq_self hu, slugChars_eq_self hu]
  rfl

/-- C6 witness: idempotence at the concrete sample title. -/
theorem C6_slug_idempotent_witness :
    create_article_id
        (create_article_id "Paper Explained: Attention Is All You Need - A Beginner's Guide") =
      create_article_id "Paper Explained: Attention Is All You Need - A Beginner's Guide" :=
  C6_slug_idempotent "Paper Explained: Attention Is All You Need - A Beginner's Guide"

/-- C7 counterexample: the code truncates at the FIRST `" - "` inside the
extracted name, not only at the trailing `" - A Beginner's Guide"` suffix,
so a title whose inner paper name itself contains `" - "` loses everything
from that separator on: the spec-derived id keeps the full inner name, the
code's id does not. -/
theorem C7_cex :
    create_article_id
        "Paper Explained: Deep Learning - A Survey - A Beginner's Guide" =
      "deep-learning" ∧
    create_article_id_spec
        "Paper Explained: Deep Learning - A Survey - A Beginner's Guide" =
      "deep-learning-a-survey" ∧
    create_article_id
        "Paper Explained: Deep Learning - A Survey - A Beginner's Guide" ≠
      create_article_id_spec
        "Paper Explained: Deep Learning - A Survey - A Beginner's Guide" :=
  ⟨rfl, rfl, by decide⟩

theorem splitFirst_append_self (pat rest : List Char) (hne : pat ≠ []) :
    splitFirst pat (pat ++ rest) = some ([], rest) := by
  cases pat with
  | nil => exact absurd rfl hne
  | cons p ps =>
    show splitFirst (p :: ps) (p :: (ps ++ rest)) = _
    have hpre : (p :: ps).isPrefixOf (p :: (ps ++ rest)) = true :=
      List.isPrefixOf_iff_prefix.mpr ⟨rest, by simp⟩
    simp only [splitFirst, hpre, if_true]
    rw [show p :: (ps ++ rest) = (p :: ps) ++ rest from rfl, List.drop_left]

/-- C7 amended: for a title of the form `"Paper Explained: " ++ rest` (with
no second occurrence of the marker), the corpus id is the slug of `rest`
truncated at the FIRST `" - "` occurrence — not of `rest` minus only a
trailing `" - A Beginner's Guide"` suffix. -/
theorem C7_amended_first_dash (rest : List Char)
    (h : splitFirst peSep rest = none) :
    create_article_id ⟨peSep ++ rest⟩ = ⟨slugChars (truncAtFirstDash rest)⟩ := by
  show (⟨slugChars (extractPaperTitle (peSep ++ rest))⟩ : String) = _
  rw [extractPaperTitle, splitFirst_append_self peSep rest (by decide)]
  dsimp only
  rw [h]
  rfl

/-- C7 amended, witness at the usual generated title shape. -/
theorem C7_amended_first_dash_witness :
    splitFirst peSep ("Attention Is All You Need - A Beginner's Guide".data) = none ∧
    create_article_id ⟨peSep ++ "Attention Is All You Need - A Beginner's Guide".data⟩ =
      ⟨slugChars (truncAtFirstDash "Attention Is All You Need - A Beginner's Guide".data)⟩ :=
  ⟨by decide, C7_amended_first_dash _ (by decide)⟩

/-- C8 counterexample: integrating two distinct articles whose titles
slugify to the same string keeps both entries (the second is not rejected)
with identical ids (the second is not disambiguated), so the corpus-id
uniqueness the claim demands is silently violated. -/
theorem C8_cex :
    sampleArticle "Deep Learning" "s1" "2024-01-01" ≠
      sampleArticle "Deep  Learning!" "s2" "2024-01-02" ∧
    create_article_id (sampleArticle "Deep Learning" "s1" "2024-01-01").title =
      create_article_id (sampleArticle "Deep  Learning!" "s2" "2024-01-02").title ∧
    (integrate_articles [sampleArticle "Deep Learning" "s1" "2024-01-01",
        sampleArticle "Deep  Learning!" "s2" "2024-01-02"]).length = 2 ∧
    (integrate_articles [sampleArticle "Deep Learning" "s1" "2024-01-01",
        sampleArticle "Deep  Learning!" "s2" "2024-01-02"]).map CorpusEntry.id =
      ["deep-learning", "deep-learning"] :=
  ⟨by decide, rfl, rfl, rfl⟩

/-- C8 amended: `integrate_articles` performs no collision handling at all:
for any two articles whose titles slugify to the same string, both
projections are kept in input order, both carry that same id, and the
resulting id column has a duplicate (the corpus-id uniqueness invariant is
violated; the renderer's id lookup then resolves to the first entry). -/
theorem C8_amended_no_collision_handling (a1 a2 : Article)
    (h : create_article_id a1.title = create_article_id a2.title) :
    (integrate_articles [a1, a2]).length = 2 ∧
    (integrate_articles [a1, a2]).map CorpusEntry.id =
      [create_article_id a1.title, create_article_id a1.title] ∧
    ¬ ((integrate_articles [a1, a2]).map CorpusEntry.id).Nodup := by
  refine ⟨rfl, by simp [integrate_articles, toCorpusEntry, h], ?_⟩
  simp [integrate_articles, toCorpusEntry, h]

/-- C8 amended, witness at the concrete colliding pair. -/
theorem C8_amended_witness :
    create_article_id (sampleArticle "Deep Learning" "s1" "2024-01-01").title =
      create_article_id (sampleArticle "Deep  Learning!" "s2" "2024-01-02").title ∧
    ¬ ((integrate_articles [sampleArticle "Deep Learning" "s1" "2024-01-01",
        sampleArticle "Deep  Learning!" "s2" "2024-01-02"]).map CorpusEntry.id).Nodup :=
  ⟨rfl, (C8_amended_no_collision_handling _ _ rfl).2.2⟩

/-! ## Claims C2 and C3 (corpus integration and the daily path) -/

/-- C2 counterexample: `ContentManager.integrate_articles` does not append
to the existing corpus — it overwrites `articles.json` with the projections
of the new articles alone, so a pre-existing corpus entry is lost. -/
theorem C2_cex :
    oldEntry ∈ [oldEntry] ∧
    oldEntry ∉
      integrate_articles_file [sampleArticle "New Paper" "sn" "2024-06-01"]
        [oldEntry] := by
  refine ⟨List.mem_singleton.mpr rfl, ?_⟩
  decide

/-- C2 amended: `integrate_articles` replaces the persisted corpus with
exactly the projections of its input articles, in input order: the output
has one entry per input article, an entry is in the output iff it is the
projection of an input article, and every pre-existing entry that is not
such a projection is dropped. No sorting happens inside
`integrate_articles`; on the `blog_automation.integrate_all_content` path
the written list is the collected articles sorted by `publish_date`
descending, so that written file is publish-date-sorted. -/
theorem C2_amended_overwrite :
    (∀ (arts : List Article) (old : List CorpusEntry),
      (integrate_articles_file arts old).length = arts.length) ∧
    (∀ (arts : List Article) (old : List CorpusEntry) (e : CorpusEntry),
      e ∈ integrate_articles_file arts old ↔ ∃ a ∈ arts, toCorpusEntry a = e) ∧
    (∀ (arts : List Article) (old : List CorpusEntry) (e : CorpusEntry),
      e ∈ old → (∀ a ∈ arts, toCorpusEntry a ≠ e) →
        e ∉ integrate_articles_file arts old) ∧
    (∀ (collected : List Article) (old : List CorpusEntry),
      (integrate_all_content collected old).Pairwise
        (fun e1 e2 => e2.publishDate ≤ e1.publishDate)) := by
  refine ⟨fun arts old => by simp [integrate_articles_file, integrate_articles],
    fun arts old e => by simp [integrate_articles_file, integrate_articles],
    fun arts old e _ hne hmem => ?_, fun collected old => ?_⟩
  · rw [integrate_articles_file, integrate_articles] at hmem
    rcases List.mem_map.mp hmem with ⟨a, ha, hae⟩
    exact hne a ha hae
  · have hs : (collected.insertionSort pubDateGe).Pairwise pubDateGe :=
      List.sorted_insertionSort pubDateGe collected
    exact List.Pairwise.map toCorpusEntry (fun a b hab => hab) hs

/-- C2 amended, witness: the concrete lost entry, via the theorem. -/
theorem C2_amended_witness :
    oldEntry ∈ [oldEntry] ∧
    (∀ a ∈ [sampleArticle "New Paper" "sn" "2024-06-01"],
      toCorpusEntry a ≠ oldEntry) ∧
    oldEntry ∉
      integrate_articles_file [sampleArticle "New Paper" "sn" "2024-06-01"]
        [oldEntry] := by
  refine ⟨List.mem_singleton.mpr rfl, by decide, ?_⟩
  exact C2_amended_overwrite.2.2.1 _ [oldEntry] oldEntry
    (List.mem_singleton.mpr rfl) (by decide)

/-- C3: for every non-empty article list, the automated-daily integration
step leaves the corpus file unchanged: the method it calls
(`ContentManager.integrate_articles_to_blog`) is not among the methods
`ContentManager` defines, the `AttributeError` is caught and logged, and no
write occurs on this path. -/
theorem C3_daily_integration_noop (articles : List Article)
    (corpusFile : List CorpusEntry) (h : articles ≠ []) :
    daily_integrate_articles articles corpusFile = (corpusFile, true) := by
  cases articles with
  | nil => exact absurd rfl h
  | cons a as =>
    rw [daily_integrate_articles, if_neg (by simp), if_neg (by decide)]

/-- C3 witness: a concrete non-empty article list leaves the concrete
corpus file untouched and logs the error. -/
theorem C3_daily_integration_noop_witness :
    ([sampleArticle "T" "s" "2024-06-01"] ≠ ([] : List Article)) ∧
    daily_integrate_articles [sampleArticle "T" "s" "2024-06-01"] [oldEntry] =
      ([oldEntry], true) :=
  ⟨by simp, C3_daily_integration_noop _ _ (by simp)⟩

/-! ## Claim C1 (deduplication selection) -/

/-- Stability of the relevance sort: the subsequence of papers having any
fixed score is untouched by `insertionSort scoreGe`. -/
theorem filter_score_insertionSort (k : Int) (l : List Paper) :
    (l.insertionSort scoreGe).filter (fun p => decide (scoreOf p = k)) =
      l.filter (fun p => decide (scoreOf p = k)) := by
  have hpair : (l.filter (fun p => decide (scoreOf p = k))).Pairwise scoreGe := by
    refine List.pairwise_of_forall_mem_list ?_
    intro a ha b hb
    have ha' := of_decide_eq_true (List.mem_filter.mp ha).2
    have hb' := of_decide_eq_true (List.mem_filter.mp hb).2
    show scoreOf b ≤ scoreOf a
    rw [ha', hb']
  have hsub : (l.filter (fun p => decide (scoreOf p = k))).Sublist
      (l.insertionSort scoreGe) :=
    List.sublist_insertionSort hpair (List.filter_sublist l)
  have hself : (l.filter (fun p => decide (scoreOf p = k))).filter
      (fun p => decide (scoreOf p = k)) =
      l.filter (fun p => decide (scoreOf p = k)) :=
    List.filter_eq_self.mpr (fun a ha => (List.mem_filter.mp ha).2)
  have hsub2 : (l.filter (fun p => decide (scoreOf p = k))).Sublist
      ((l.insertionSort scoreGe).filter (fun p => decide (scoreOf p = k))) := by
    have := hsub.filter (fun p => decide (scoreOf p = k))
    rwa [hself] at this
  have hperm : ((l.insertionSort scoreGe).filter
      (fun p => decide (scoreOf p = k))).Perm
      (l.filter (fun p => decide (scoreOf p = k))) :=
    (List.perm_insertionSort scoreGe l).filter _
  exact (hsub2.eq_of_length hperm.length_eq.symm).symm

/-- C1: the daily selection (filter by id, stable sort by relevance score
descending, truncate) never returns a paper whose id is among the existing
ids, returns at most `limit` papers, orders them by non-increasing
relevance score, and is stable: for every score, the selected papers with
that score are a prefix of the deduplicated candidates with that score, in
input order. In particular, for 5 unseen papers with scores
[3, 9, 1, 9, 5] and limit 2, exactly the two score-9 papers are returned,
in their input order. -/
theorem C1_selection :
    (∀ (recent : List Paper) (existing : List String) (limit : Nat),
      (∀ p ∈ find_new_papers recent existing limit, p.id ∉ existing) ∧
      (find_new_papers recent existing limit).length ≤ limit ∧
      (find_new_papers recent existing limit).Pairwise scoreGe ∧
      (∀ k : Int,
        (find_new_papers recent existing limit).filter
            (fun p => decide (scoreOf p = k)) <+:
          (recent.filter (fun p => decide (p.id ∉ existing))).filter
            (fun p => decide (scoreOf p = k)))) ∧
    find_new_papers scenarioPapers [] 2 =
      [scorePaper "p2" 9, scorePaper "p4" 9] := by
  refine ⟨fun recent existing limit => ⟨?_, ?_, ?_, ?_⟩, ?_⟩
  · intro p hp
    have h1 : p ∈ (recent.filter
        (fun p => decide (p.id ∉ existing))).insertionSort scoreGe :=
      (List.take_sublist _ _).mem hp
    have h2 : p ∈ recent.filter (fun p => decide (p.id ∉ existing)) :=
      (List.mem_insertionSort scoreGe).mp h1
    exact of_decide_eq_true (List.mem_filter.mp h2).2
  · rw [find_new_papers, List.length_take]
    exact min_le_left _ _
  · exact List.Pairwise.sublist (List.take_sublist _ _)
      (List.sorted_insertionSort scoreGe _)
  · intro k
    have hpre : (((recent.filter
          (fun p => decide (p.id ∉ existing))).insertionSort
          scoreGe).take limit) <+:
        (recent.filter (fun p => decide (p.id ∉ existing))).insertionSort
          scoreGe :=
      ⟨((recent.filter (fun p => decide (p.id ∉ existing))).insertionSort
          scoreGe).drop limit, List.take_append_drop _ _⟩
    have hfs := List.IsPrefix.filter (fun p => decide (scoreOf p = k)) hpre
    rw [filter_score_insertionSort] at hfs
    exact hfs
  · rfl

/-- C1 witness: a selected paper is indeed not among the existing ids. -/
theorem C1_selection_witness :
    scorePaper "p2" 9 ∈ find_new_papers scenarioPapers ["p1"] 2 ∧
    (scorePaper "p2" 9).id ∉ ["p1"] :=
  ⟨by decide, (C1_selection.1 scenarioPapers ["p1"] 2).1 _ (by decide)⟩

/-! ## Claim C10 (paper-source failures) -/

/-- C10: when the paper source fails (unreachable, non-2xx status or
malformed response — anything the surrounding `try` catches),
`ArxivFetcher.search_papers` returns the empty candidate list instead of
raising; likewise `EnhancedArxivFetcher.search_recent_papers` returns the
empty list when each of its three searches fails. -/
theorem C10_source_errors :
    (∀ (env : String → Except String (List RawEntry)) (query e : String),
      env query = .error e → search_papers env query = []) ∧
    (∀ (env : String → Except String (List Paper)) (query : String)
        (max_results : Nat),
      (∀ q ∈ enhanced_queries query, ∃ e, env q = .error e) →
      search_recent_papers env query max_results = []) := by
  constructor
  · intro env query e h
    simp [search_papers, h]
  · intro env query mr h
    obtain ⟨e1, h1⟩ := h ("(" ++ query ++ ")") (by simp [enhanced_queries])
    obtain ⟨e2, h2⟩ := h ("(artificial intelligence OR machine learning OR deep learning OR neural network OR transformer OR attention mechanism)") (by simp [enhanced_queries])
    obtain ⟨e3, h3⟩ := h ("(computer vision OR natural language processing OR reinforcement learning OR generative model)") (by simp [enhanced_queries])
    simp [search_recent_papers, enhanced_queries, h1, h2, h3, dedupeById]

/-- C10 witness: an unreachable source yields empty candidate lists. -/
theorem C10_source_errors_witness :
    ((fun _ => .error "connection refused" :
        String → Except String (List RawEntry)) "transformer" =
      .error "connection refused") ∧
    search_papers (fun _ => .error "connection refused") "transformer" = [] ∧
    search_recent_papers (fun _ => .error "connection refused")
      "transformer OR attention" 20 = [] :=
  ⟨rfl, C10_source_errors.1 _ "transformer" "connection refused" rfl,
    C10_source_errors.2 _ "transformer OR attention" 20
      (fun _ _ => ⟨"connection refused", rfl⟩)⟩

/-! ## Claim C4 (per-call failure isolation) -/

/-- C4 counterexample: the per-call placeholder substitution is not
section-local for the concept-identification call: failing ONLY that call
(versus the otherwise identical service) changes the text of the
concept-explanation section, whose prompt embeds the identified title. The
four independent content sections are untouched and the failing call's own
field holds the placeholder. -/
theorem C4_cex :
    svcConceptFail
        (.conceptIdentify attentionPaper.title attentionPaper.summary) =
      .error "boom" ∧
    (generate_article svcConceptFail "2026-10-12" attentionPaper).concept_explained =
      "Error generating content: boom" ∧
    (generate_article svcConceptFail "2026-10-12" attentionPaper).content =
      (generate_article svcEcho "2026-10-12" attentionPaper).content ∧
    (generate_article svcConceptFail "2026-10-12" attentionPaper).concept_explanation.content ≠
      (generate_article svcEcho "2026-10-12" attentionPaper).concept_explanation.content := by
  refine ⟨rfl, rfl, rfl, ?_⟩
  decide

/-- C4 amended: every failing generation call substitutes the visible
placeholder `"Error generating content: <detail>"` into its own field
(stripped where the code strips), `generate_article` always returns a
complete article, and each of the seven sections other than the
concept explanation depends only on the service's reply to its own prompt;
the concept-explanation content depends on the identification reply and on
the reply to the explanation prompt built from it — so a failure of the
concept-identification call may also change that one section. -/
theorem C4_amended :
    (∀ (svc : Prompt → Except String String) (now : String) (paper : Paper)
        (e : String),
      (svc (.background paper.title paper.summary) = .error e →
        (generate_article svc now paper).content.background =
          "Error generating content: " ++ e) ∧
      (svc (.methodology paper.title paper.summary) = .error e →
        (generate_article svc now paper).content.methodology =
          "Error generating content: " ++ e) ∧
      (svc (.results paper.title paper.summary) = .error e →
        (generate_article svc now paper).content.results =
          "Error generating content: " ++ e) ∧
      (svc (.significance paper.title paper.summary paper.published) = .error e →
        (generate_article svc now paper).content.significance =
          "Error generating content: " ++ e) ∧
      (svc (.conceptIdentify paper.title paper.summary) = .error e →
        (generate_article svc now paper).concept_explained =
          pyStrip ("Error generating content: " ++ e)) ∧
      (svc (.conceptExplain
          ((generate_article svc now paper).concept_explained)
          paper.title paper.summary) = .error e →
        (generate_article svc now paper).concept_explanation.content =
          "Error generating content: " ++ e) ∧
      (svc (.summarize paper.title paper.summary) = .error e →
        (generate_article svc now paper).summary =
          pyStrip ("Error generating content: " ++ e)) ∧
      (svc (.subtitle paper.title paper.summary) = .error e →
        (generate_article svc now paper).subtitle =
          pyStrip ("Error generating content: " ++ e))) ∧
    (∀ (svc svc' : Prompt → Except String String) (now : String) (paper : Paper),
      (svc (.background paper.title paper.summary) =
          svc' (.background paper.title paper.summary) →
        (generate_article svc now paper).content.background =
          (generate_article svc' now paper).content.background) ∧
      (svc (.methodology paper.title paper.summary) =
          svc' (.methodology paper.title paper.summary) →
        (generate_article svc now paper).content.methodology =
          (generate_article svc' now paper).content.methodology) ∧
      (svc (.results paper.title paper.summary) =
          svc' (.results paper.title paper.summary) →
        (generate_article svc now paper).content.results =
          (generate_article svc' now paper).content.results) ∧
      (svc (.significance paper.title paper.summary paper.published) =
          svc' (.significance paper.title paper.summary paper.published) →
        (generate_article svc now paper).content.significance =
          (generate_article svc' now paper).content.significance) ∧
      (svc (.summarize paper.title paper.summary) =
          svc' (.summarize paper.title paper.summary) →
        (generate_article svc now paper).summary =
          (generate_article svc' now paper).summary) ∧
      (svc (.subtitle paper.title paper.summary) =
          svc' (.subtitle paper.title paper.summary) →
        (generate_article svc now paper).subtitle =
          (generate_article svc' now paper).subtitle) ∧
      (svc (.conceptIdentify paper.title paper.summary) =
          svc' (.conceptIdentify paper.title paper.summary) →
        (generate_article svc now paper).concept_explained =
          (generate_article svc' now paper).concept_explained) ∧
      (svc (.conceptIdentify paper.title paper.summary) =
          svc' (.conceptIdentify paper.title paper.summary) →
        svc (.conceptExplain
            ((generate_article svc now paper).concept_explained)
            paper.title paper.summary) =
          svc' (.conceptExplain
            ((generate_article svc now paper).concept_explained)
            paper.title paper.summary) →
        (generate_article svc now paper).concept_explanation.content =
          (generate_article svc' now paper).concept_explanation.content)) := by
  constructor
  · intro svc now paper e
    refine ⟨fun h => ?_, fun h => ?_, fun h => ?_, fun h => ?_, fun h => ?_,
      fun h => ?_, fun h => ?_, fun h => ?_⟩ <;>
      simp only [generate_article, call_openai] at h ⊢ <;> rw [h]
  · intro svc svc' now paper
    refine ⟨fun h => ?_, fun h => ?_, fun h => ?_, fun h => ?_, fun h => ?_,
      fun h => ?_, fun h => ?_, fun h1 h2 => ?_⟩
    · simp only [generate_article, call_openai]
      rw [h]
    · simp only [generate_article, call_openai]
      rw [h]
    · simp only [generate_article, call_openai]
      rw [h]
    · simp only [generate_article, call_openai]
      rw [h]
    · simp only [generate_article, call_openai]
      rw [h]
    · simp only [generate_article, call_openai]
      rw [h]
    · simp only [generate_article, call_openai]
      rw [h]
    · simp only [generate_article, call_openai] at h2 ⊢
      rw [h1] at h2 ⊢
      rw [h2]

/-- C4 amended, witness: an unaffected section is unchanged by the
concept-identification failure. -/
theorem C4_amended_witness :
    svcConceptFail (.background attentionPaper.title attentionPaper.summary) =
      svcEcho (.background attentionPaper.title attentionPaper.summary) ∧
    (generate_article svcConceptFail "2026-10-12" attentionPaper).content.background =
      (generate_article svcEcho "2026-10-12" attentionPaper).content.background :=
  ⟨rfl,
    (C4_amended.2 svcConceptFail svcEcho "2026-10-12" attentionPaper).1 rfl⟩

end AIPaperBlog
